import Mathlib

/-!
Shallow embedding of the tasmotaHTTP OpenMotics plugin
(src/tasmotaHTTP/main.py, class TasmotaHTTP).

Modelling conventions:
- Python ints (configuration values, output ids, statuses, timestamps taken
  from int(time.time()), failure counters) are modelled as Lean Int.
- The two plugin dictionaries self._max_retries_arr and self._clear_interval_arr
  are modelled as total maps Int -> Int.  _read_config stores 0 under every
  mapped integer output id and the reconciliation loop reads the dictionaries
  only at those keys, so a total map whose default is 0 is observationally
  faithful for every read the program performs.
- The local dictionary previous_values of TasmotaHTTP.run is modelled as a
  total map String -> Option Int, where none models key absence (the Python
  code guards each read with a membership test).  It is a local variable of
  the run loop, deliberately kept outside the state that set_config rebuilds.
- A Python exception is modelled as Except.error: update_tasmota returns
  Except Unit Int, and a tick of the run loop returns Except Unit of the poststate,
  error meaning the exception escapes the loop body.
- HTTP traffic of update_tasmota is an oracle http : Device -> Int -> HttpResponse
  giving, for a device and a requested Power action, the response; its
  status_code and (pre-parsed) POWER field of the JSON body.  A body that is
  not JSON or has no POWER key is modelled as power = none (the json lookup
  raises in that case).
- Every invocation of update_tasmota is recorded in a trace, so that claims
  of the form "the device updater is never invoked" are statements about the
  trace delta of a step.
-/

/-- One entry of the tasmota_mapping configuration section.  output_id is
Option Int: none models a value that fails the isinstance int check of the
source (such entries are skipped both by _read_config and by run). -/
structure Device where
  label : String
  ip_address : String
  username : String
  password : String
  output_id : Option Int
deriving DecidableEq

/-- One entry of the status list returned by the output state source:
a dict with an id and a status field. -/
structure OutputEntry where
  id : Int
  status : Int
deriving DecidableEq

/-- The plugin configuration after json decoding, as _read_config consumes it. -/
structure Config where
  refresh_interval : Int
  max_retries : Int
  clear_interval : Int
  tasmota_mapping : List Device
deriving DecidableEq

/-- An HTTP response of a tasmota device, restricted to what update_tasmota
inspects: the status code, and the POWER field of the JSON body (none when
the body cannot be parsed or has no POWER key, in which case the json lookup
raises). -/
structure HttpResponse where
  status_code : Int
  power : Option String
deriving DecidableEq

/-- The two plugin dictionaries rebuilt by _read_config:
self._max_retries_arr (consecutive failure count per output id) and
self._clear_interval_arr (the time at which max retries was exceeded,
0 meaning not set). -/
structure SyncState where
  max_retries_arr : Int → Int
  clear_interval_arr : Int → Int

/-- The mutable state visible to one tick of run: the plugin dictionaries
plus the loop-local previous_values dictionary (label -> last value returned
by a successful update_tasmota call). -/
structure LoopState where
  sync : SyncState
  previous_values : String → Option Int

/-- Dictionary write for the Int-keyed plugin dictionaries. -/
def updI (f : Int → Int) (k v : Int) : Int → Int :=
  fun x => if x = k then v else f x

/-- Dictionary write for the label-keyed previous_values dictionary. -/
def updS (f : String → Option Int) (k : String) (v : Option Int) :
    String → Option Int :=
  fun x => if x = k then v else f x

@[simp] theorem updI_same (f : Int → Int) (k v : Int) : updI f k v k = v := by
  simp [updI]

@[simp] theorem updI_other (f : Int → Int) (k v x : Int) (h : x ≠ k) :
    updI f k v x = f x := by
  simp [updI, h]

@[simp] theorem updS_same (f : String → Option Int) (k : String) (v : Option Int) :
    updS f k v k = v := by
  simp [updS]

@[simp] theorem updS_other (f : String → Option Int) (k : String) (v : Option Int)
    (x : String) (h : x ≠ k) : updS f k v x = f x := by
  simp [updS, h]

/-- TasmotaHTTP.update_tasmota: one GET to the device control endpoint.
On a 200 response it parses the POWER field of the body and returns 1 when
it equals the string ON and 0 otherwise; on any other status code it raises.
A 200 response whose body cannot be parsed as JSON with a POWER key also
raises (inside the json lookup). -/
def update_tasmota (http : Device → Int → HttpResponse) (device : Device)
    (output : OutputEntry) : Except Unit Int :=
  let response := http device output.status
  if response.status_code = 200 then
    match response.power with
    | some p => .ok (if p = "ON" then 1 else 0)
    | none => .error ()
  else
    .error ()

/-- A record of one update_tasmota invocation: the device label and the
requested Power action. -/
abbrev Trace := List (String × Int)

/-- Body of the inner loop of TasmotaHTTP.run, for output in result status,
for a device whose integer output id is device_output_id.  Mirrors lines
113-130 of the source: skip non-matching entries, skip when previous_values
holds exactly the reported status, otherwise call update_tasmota; on success
store the returned value and reset both dictionaries at this output id, on
exception increment the failure count and, when it then exceeds max_retries,
store the current time in clear_interval_arr. -/
def processOutput (cfg : Config) (now : Int) (http : Device → Int → HttpResponse)
    (device : Device) (device_output_id : Int)
    (acc : LoopState × Trace) (output : OutputEntry) : LoopState × Trace :=
  let st := acc.1
  if output.id ≠ device_output_id then acc
  else if st.previous_values device.label = some output.status then acc
  else
    match update_tasmota http device output with
    | .ok v =>
        ({ sync := { max_retries_arr := updI st.sync.max_retries_arr device_output_id 0,
                     clear_interval_arr := updI st.sync.clear_interval_arr device_output_id 0 },
           previous_values := updS st.previous_values device.label (some v) },
         acc.2 ++ [(device.label, output.status)])
    | .error _ =>
        let fc := st.sync.max_retries_arr device_output_id + 1
        let sync1 : SyncState :=
          { max_retries_arr := updI st.sync.max_retries_arr device_output_id fc,
            clear_interval_arr :=
              if fc > cfg.max_retries
              then updI st.sync.clear_interval_arr device_output_id now
              else st.sync.clear_interval_arr }
        ({ sync := sync1, previous_values := st.previous_values },
         acc.2 ++ [(device.label, output.status)])

/-- Body of the outer loop of TasmotaHTTP.run, for device in self._tasmota_mapping
(lines 100-130): skip entries without an integer output id; reset both
dictionaries when a stored clear time is set and strictly older than
clear_interval minutes; skip the device while its failure count exceeds
max_retries; otherwise run the inner loop over the fetched status list. -/
def processDevice (cfg : Config) (now : Int) (http : Device → Int → HttpResponse)
    (statusList : List OutputEntry) (acc : LoopState × Trace) (device : Device) :
    LoopState × Trace :=
  match device.output_id with
  | none => acc
  | some device_output_id =>
    let st := acc.1
    let st :=
      if st.sync.clear_interval_arr device_output_id ≠ 0 ∧
         st.sync.clear_interval_arr device_output_id + cfg.clear_interval * 60 < now then
        { st with sync := { max_retries_arr := updI st.sync.max_retries_arr device_output_id 0,
                            clear_interval_arr := updI st.sync.clear_interval_arr device_output_id 0 } }
      else st
    if st.sync.max_retries_arr device_output_id > cfg.max_retries then (st, acc.2)
    else statusList.foldl (processOutput cfg now http device device_output_id) (st, acc.2)

/-- Outcome of result = json.loads(self.webinterface.get_output_status()):
exn when the fetch call or json.loads raises; payload none when the decoded
dict has no status key; payload (some l) when it has one. -/
inductive FetchResult where
  | exn : FetchResult
  | payload : Option (List OutputEntry) → FetchResult
deriving DecidableEq

/-- One enabled iteration of the while loop of TasmotaHTTP.run (lines 98-130):
decode the fetched output states, do nothing when there is no status key,
otherwise fold the per-device body over the configured mapping.  A raising
fetch or undecodable payload is not caught anywhere in run, so it escapes
the loop body: the tick returns Except.error. -/
def tick (cfg : Config) (now : Int) (http : Device → Int → HttpResponse)
    (fetch : FetchResult) (st : LoopState) : Except Unit (LoopState × Trace) :=
  match fetch with
  | .exn => .error ()
  | .payload none => .ok (st, [])
  | .payload (some statusList) =>
      .ok (cfg.tasmota_mapping.foldl (processDevice cfg now http statusList) (st, []))

/-- The while-True loop of TasmotaHTTP.run, driven by a schedule of
(time, fetch outcome) pairs, one per enabled tick.  An exception escaping a
tick terminates the loop (the background task dies); otherwise the poststate
feeds the next tick. -/
def run_loop (cfg : Config) (http : Device → Int → HttpResponse) :
    LoopState → List (Int × FetchResult) → Except Unit LoopState
  | st, [] => .ok st
  | st, (now, f) :: rest => do
      let r ← tick cfg now http f st
      run_loop cfg http r.1 rest

/-- TasmotaHTTP._read_config, restricted to the state the claims are about:
it rebuilds self._max_retries_arr and self._clear_interval_arr as fresh
dictionaries and stores 0 under every mapped integer output id (lines 75-88).
A fresh dictionary is the constant-0 total map under our modelling. -/
def read_config_rebuild (cfg : Config) : SyncState :=
  let init : SyncState := { max_retries_arr := fun _ => 0, clear_interval_arr := fun _ => 0 }
  cfg.tasmota_mapping.foldl
    (fun st device =>
      match device.output_id with
      | none => st
      | some oid =>
          { max_retries_arr := updI st.max_retries_arr oid 0,
            clear_interval_arr := updI st.clear_interval_arr oid 0 })
    init

/-- Outcome of config = json.loads(config) at the top of set_config:
exn when the argument is not valid JSON, parsed when it decodes.  The
six.string_types coercion loop that follows is the identity on our model. -/
inductive ConfigParse where
  | exn : ConfigParse
  | parsed : Config → ConfigParse

/-- TasmotaHTTP.set_config (lines 145-155) acting on the plugin state it can
reach: the active configuration and the two dictionaries _read_config rebuilds.
json.loads and self._config_checker.check_config both raise before any field
of self is assigned, so on either failure the state is returned unchanged and
the caller sees the exception; on success the configuration is replaced,
_read_config rebuilds the dictionaries, and the success JSON is returned.
The loop-local previous_values dictionary is not part of this state and is
untouched.  write_config persists externally and is not modelled. -/
def set_config (check_config : Config → Bool) (parse : ConfigParse)
    (p : Config × SyncState) : (Config × SyncState) × Except Unit String :=
  match parse with
  | .exn => (p, .error ())
  | .parsed cfg =>
      if check_config cfg then
        ((cfg, read_config_rebuild cfg), .ok "\x7b\"success\": true\x7d")
      else
        (p, .error ())

/-- A left fold whose function fixes the accumulator on every list element
returns the accumulator. -/
theorem foldl_fixed {α β : Type} (f : α → β → α) (acc : α) :
    ∀ l : List β, (∀ x ∈ l, f acc x = acc) → l.foldl f acc = acc := by
  intro l
  induction l with
  | nil => intro _; rfl
  | cons y ys ih =>
      intro h
      have hy : f acc y = acc := h y (List.mem_cons_self y ys)
      have hys : ∀ x ∈ ys, f acc x = acc := fun x hx => h x (List.mem_cons_of_mem y hx)
      simp [List.foldl_cons, hy, hys, ih hys]

/-- Auxiliary invariant for read_config_rebuild: folding the per-device
initialisation over any list preserves the all-zero property of both
dictionaries. -/
theorem read_config_aux (l : List Device) :
    ∀ s : SyncState,
      (∀ oid, s.max_retries_arr oid = 0 ∧ s.clear_interval_arr oid = 0) →
      ∀ oid,
        (l.foldl
          (fun st device =>
            match device.output_id with
            | none => st
            | some oid =>
                { max_retries_arr := updI st.max_retries_arr oid 0,
                  clear_interval_arr := updI st.clear_interval_arr oid 0 }) s).max_retries_arr oid = 0 ∧
        (l.foldl
          (fun st device =>
            match device.output_id with
            | none => st
            | some oid =>
                { max_retries_arr := updI st.max_retries_arr oid 0,
                  clear_interval_arr := updI st.clear_interval_arr oid 0 }) s).clear_interval_arr oid = 0 := by
  induction l with
  | nil => intro s hs oid; exact hs oid
  | cons d ds ih =>
      intro s hs oid
      apply ih
      intro k
      cases hd : d.output_id with
      | none => simpa [hd] using hs k
      | some j =>
          constructor
          · by_cases hk : k = j
            · simp [hd, hk]
            · simp [hd, updI_other _ _ _ _ hk, (hs k).1]
          · by_cases hk : k = j
            · simp [hd, hk]
            · simp [hd, updI_other _ _ _ _ hk, (hs k).2]

/-- Both dictionaries rebuilt by _read_config hold 0 at every key. -/
theorem read_config_rebuild_zero (cfg : Config) (oid : Int) :
    (read_config_rebuild cfg).max_retries_arr oid = 0 ∧
    (read_config_rebuild cfg).clear_interval_arr oid = 0 := by
  exact read_config_aux cfg.tasmota_mapping _ (fun _ => ⟨rfl, rfl⟩) oid

/-- The inner loop body leaves the accumulator untouched on a status entry
whose id is not the id of the device being processed. -/
theorem processOutput_id_mismatch (cfg : Config) (now : Int)
    (http : Device → Int → HttpResponse) (device : Device) (oid : Int)
    (acc : LoopState × Trace) (o : OutputEntry) (h : o.id ≠ oid) :
    processOutput cfg now http device oid acc o = acc := by
  simp [processOutput, h]

/-- The inner loop body leaves the accumulator untouched when previous_values
already holds exactly the reported status for this device label. -/
theorem processOutput_prev_match (cfg : Config) (now : Int)
    (http : Device → Int → HttpResponse) (device : Device) (oid : Int)
    (acc : LoopState × Trace) (o : OutputEntry) (hid : o.id = oid)
    (hprev : acc.1.previous_values device.label = some o.status) :
    processOutput cfg now http device oid acc o = acc := by
  simp [processOutput, hid, hprev]

/-- C1 (amended): when the fetched payload decodes as JSON but carries no
status key, the run loop skips that tick and continues with the same state;
but a fetch call (or json decode) that raises is not caught anywhere in run,
so that outcome terminates the loop. -/
theorem C1_amended_fetch_handling (cfg : Config) (now : Int)
    (http : Device → Int → HttpResponse) (st : LoopState)
    (rest : List (Int × FetchResult)) :
    run_loop cfg http st ((now, .payload none) :: rest) = run_loop cfg http st rest ∧
    run_loop cfg http st ((now, .exn) :: rest) = .error () := by
  exact ⟨rfl, rfl⟩

/-- C1 counterexample: a fetch outcome that raises terminates the run loop.
Refutes "no fetch outcome ever terminates (crashes) the loop": at this
concrete input the loop ends with the escaped exception. -/
theorem C1_counterexample :
    run_loop ⟨5, 20, 30, [⟨"lamp", "10.0.0.5", "", "", some 3⟩]⟩
        (fun _ _ => ⟨200, some "ON"⟩)
        ⟨⟨fun _ => 0, fun _ => 0⟩, fun _ => none⟩
        [(100, .exn)] = .error () := rfl

/-- C9: set_config raises before assigning any plugin field, both for an
argument that does not decode as JSON and for a decoded configuration the
checker rejects; the caller sees the failure and the active configuration
and rebuilt dictionaries stay exactly as they were. -/
theorem C9_invalid_config_rejected (check : Config → Bool)
    (p : Config × SyncState) (cfg : Config) :
    set_config check .exn p = (p, .error ()) ∧
    (check cfg = false → set_config check (.parsed cfg) p = (p, .error ())) := by
  refine ⟨rfl, fun h => ?_⟩
  simp [set_config, h]

/-- C9 witness: a rejected configuration at a concrete state leaves the
state unchanged and returns the failure. -/
theorem C9_witness :
    set_config (fun _ => false) (.parsed ⟨5, 20, 30, []⟩)
        (⟨5, 2, 1, []⟩, ⟨fun _ => 7, fun _ => 100⟩)
      = ((⟨5, 2, 1, []⟩, ⟨fun _ => 7, fun _ => 100⟩), .error ()) :=
  (C9_invalid_config_rejected (fun _ => false) (⟨5, 2, 1, []⟩, ⟨fun _ => 7, fun _ => 100⟩)
    ⟨5, 20, 30, []⟩).2 rfl

/-- C3: while the stored clear time of a device output is set and strictly
fewer than clear_interval minutes old, and the failure count exceeds
max_retries, processing that device is the identity on state and trace:
update_tasmota is never invoked for it, whatever status list the source
reports. -/
theorem C3_cooldown_skips_ticks (cfg : Config) (now : Int)
    (http : Device → Int → HttpResponse) (statusList : List OutputEntry)
    (st : LoopState) (tr : Trace) (device : Device) (oid : Int)
    (hdev : device.output_id = some oid)
    (hfc : st.sync.max_retries_arr oid > cfg.max_retries)
    (hset : st.sync.clear_interval_arr oid ≠ 0)
    (hwin : now < st.sync.clear_interval_arr oid + cfg.clear_interval * 60) :
    processDevice cfg now http statusList (st, tr) device = (st, tr) := by
  have hnot : ¬(st.sync.clear_interval_arr oid ≠ 0 ∧
      st.sync.clear_interval_arr oid + cfg.clear_interval * 60 < now) := by
    rintro ⟨-, h⟩
    omega
  simp [processDevice, hdev, hnot, hfc]

/-- C3 witness: concrete cooling-down device, 50 seconds into a 1-minute
window, with a status change reported: nothing happens. -/
theorem C3_witness :
    processDevice ⟨5, 2, 1, [⟨"lamp", "10.0.0.5", "", "", some 3⟩]⟩ 150
        (fun _ _ => ⟨200, some "ON"⟩) [⟨3, 0⟩]
        (⟨⟨fun _ => 3, fun _ => 100⟩, fun _ => some 1⟩, [])
        ⟨"lamp", "10.0.0.5", "", "", some 3⟩
      = (⟨⟨fun _ => 3, fun _ => 100⟩, fun _ => some 1⟩, []) :=
  C3_cooldown_skips_ticks _ 150 _ _ _ _ _ 3 rfl (by decide) (by decide) (by decide)

/-- C4 counterexample: stored clear time 100, clear_interval 1 minute, so the
cooldown window nominally ends at 160.  At the first tick with now = 160
(now equal to the end of the window, so "now >= cooldownUntil" holds) the
check does NOT clear the cooldown: the failure count stays 3, and no push
is attempted even though the reported status 0 differs from the last pushed
value 1.  The reset condition of the source is strict (stored + interval < now). -/
theorem C4_counterexample :
    (processDevice ⟨5, 2, 1, [⟨"lamp", "10.0.0.5", "", "", some 3⟩]⟩ 160
        (fun _ _ => ⟨200, some "ON"⟩) [⟨3, 0⟩]
        (⟨⟨fun _ => 3, fun _ => 100⟩, fun _ => some 1⟩, [])
        ⟨"lamp", "10.0.0.5", "", "", some 3⟩).1.sync.max_retries_arr 3 = 3 ∧
    (processDevice ⟨5, 2, 1, [⟨"lamp", "10.0.0.5", "", "", some 3⟩]⟩ 160
        (fun _ _ => ⟨200, some "ON"⟩) [⟨3, 0⟩]
        (⟨⟨fun _ => 3, fun _ => 100⟩, fun _ => some 1⟩, [])
        ⟨"lamp", "10.0.0.5", "", "", some 3⟩).2 = [] := by
  constructor <;> rfl

/-- C4 (amended): on the first tick at which now is STRICTLY past the stored
clear time plus clear_interval minutes, the check resets the failure count
to 0 and clears the stored time, and on that very same tick the device
proceeds to the inner loop over the status list (it is eligible for a push
attempt), provided max_retries is not negative. -/
theorem C4_amended_cooldown_expiry (cfg : Config) (now : Int)
    (http : Device → Int → HttpResponse) (statusList : List OutputEntry)
    (st : LoopState) (tr : Trace) (device : Device) (oid : Int)
    (hdev : device.output_id = some oid)
    (hset : st.sync.clear_interval_arr oid ≠ 0)
    (hexp : st.sync.clear_interval_arr oid + cfg.clear_interval * 60 < now)
    (hmax : 0 ≤ cfg.max_retries) :
    processDevice cfg now http statusList (st, tr) device =
      statusList.foldl (processOutput cfg now http device oid)
        ({ sync := { max_retries_arr := updI st.sync.max_retries_arr oid 0,
                     clear_interval_arr := updI st.sync.clear_interval_arr oid 0 },
           previous_values := st.previous_values }, tr) ∧
    updI st.sync.max_retries_arr oid 0 oid = 0 ∧
    updI st.sync.clear_interval_arr oid 0 oid = 0 := by
  refine ⟨?_, updI_same _ _ _, updI_same _ _ _⟩
  have hcond : st.sync.clear_interval_arr oid ≠ 0 ∧
      st.sync.clear_interval_arr oid + cfg.clear_interval * 60 < now := ⟨hset, hexp⟩
  have hskip : ¬((0 : Int) > cfg.max_retries) := by omega
  simp [processDevice, hdev, hcond, hskip]

/-- C4 witness: one second past the window end the reset fires and the
device reaches the inner loop in the same tick. -/
theorem C4_witness :
    processDevice ⟨5, 2, 1, [⟨"lamp", "10.0.0.5", "", "", some 3⟩]⟩ 161
        (fun _ _ => ⟨200, some "ON"⟩) [⟨3, 0⟩]
        (⟨⟨fun _ => 3, fun _ => 100⟩, fun _ => some 1⟩, [])
        ⟨"lamp", "10.0.0.5", "", "", some 3⟩ =
      [OutputEntry.mk 3 0].foldl
        (processOutput ⟨5, 2, 1, [⟨"lamp", "10.0.0.5", "", "", some 3⟩]⟩ 161
          (fun _ _ => ⟨200, some "ON"⟩) ⟨"lamp", "10.0.0.5", "", "", some 3⟩ 3)
        ({ sync := { max_retries_arr := updI (fun _ => 3) 3 0,
                     clear_interval_arr := updI (fun _ => 100) 3 0 },
           previous_values := fun _ => some 1 }, []) :=
  (C4_amended_cooldown_expiry _ 161 _ _ ⟨⟨fun _ => 3, fun _ => 100⟩, fun _ => some 1⟩ [] _ 3
    rfl (by decide) (by decide) (by decide)).1

/-- C6 counterexample: output 3 reports status 1, exactly the last pushed
value, but the tick falls strictly past the end of a set cooldown window
(stored time 100, clear_interval 1 minute, now 161).  update_tasmota is
indeed not invoked (empty trace), yet the sync state of the device is NOT
unchanged: the expiry check, which runs before the status comparison,
resets the failure count 3 to 0 (and the stored time 100 to 0).  This
refutes the claim that the sync state is unchanged on every such tick. -/
theorem C6_counterexample :
    (processDevice ⟨5, 2, 1, [⟨"lamp", "10.0.0.5", "", "", some 3⟩]⟩ 161
        (fun _ _ => ⟨200, some "ON"⟩) [⟨3, 1⟩]
        (⟨⟨fun _ => 3, fun _ => 100⟩, fun _ => some 1⟩, [])
        ⟨"lamp", "10.0.0.5", "", "", some 3⟩).2 = [] ∧
    (processDevice ⟨5, 2, 1, [⟨"lamp", "10.0.0.5", "", "", some 3⟩]⟩ 161
        (fun _ _ => ⟨200, some "ON"⟩) [⟨3, 1⟩]
        (⟨⟨fun _ => 3, fun _ => 100⟩, fun _ => some 1⟩, [])
        ⟨"lamp", "10.0.0.5", "", "", some 3⟩).1.sync.max_retries_arr 3 = 0 := by
  constructor <;> rfl

/-- C6 (amended): when every entry of the status list matching the device
output id reports exactly the value previous_values holds for its label,
update_tasmota is never invoked for the device in that tick (the trace is
unchanged); the sync state is unchanged as well, except on a tick where a
set cooldown window has strictly expired: there the expiry check, which
runs regardless of the status comparison, zeroes the failure count and the
stored clear time of this output, and nothing else changes. -/
theorem C6_amended_unchanged_status (cfg : Config) (now : Int)
    (http : Device → Int → HttpResponse) (statusList : List OutputEntry)
    (st : LoopState) (tr : Trace) (device : Device) (oid : Int)
    (hdev : device.output_id = some oid)
    (hstat : ∀ o ∈ statusList, o.id = oid →
        st.previous_values device.label = some o.status) :
    (¬(st.sync.clear_interval_arr oid ≠ 0 ∧
        st.sync.clear_interval_arr oid + cfg.clear_interval * 60 < now) →
      processDevice cfg now http statusList (st, tr) device = (st, tr)) ∧
    (st.sync.clear_interval_arr oid ≠ 0 →
      st.sync.clear_interval_arr oid + cfg.clear_interval * 60 < now →
      processDevice cfg now http statusList (st, tr) device
        = ({ sync := { max_retries_arr := updI st.sync.max_retries_arr oid 0,
                       clear_interval_arr := updI st.sync.clear_interval_arr oid 0 },
             previous_values := st.previous_values }, tr)) := by
  constructor
  · intro hcool
    have hfix : ∀ o ∈ statusList,
        processOutput cfg now http device oid (st, tr) o = (st, tr) := by
      intro o ho
      by_cases hid : o.id = oid
      · exact processOutput_prev_match cfg now http device oid (st, tr) o hid (hstat o ho hid)
      · exact processOutput_id_mismatch cfg now http device oid (st, tr) o hid
    by_cases hskip : st.sync.max_retries_arr oid > cfg.max_retries
    · simp [processDevice, hdev, hcool, hskip]
    · simp only [processDevice, hdev, if_neg hcool, if_neg hskip]
      exact foldl_fixed _ _ statusList hfix
  · intro hset hexp
    have hcond : st.sync.clear_interval_arr oid ≠ 0 ∧
        st.sync.clear_interval_arr oid + cfg.clear_interval * 60 < now := ⟨hset, hexp⟩
    have hfix : ∀ o ∈ statusList,
        processOutput cfg now http device oid
          ({ sync := { max_retries_arr := updI st.sync.max_retries_arr oid 0,
                       clear_interval_arr := updI st.sync.clear_interval_arr oid 0 },
             previous_values := st.previous_values }, tr) o
          = ({ sync := { max_retries_arr := updI st.sync.max_retries_arr oid 0,
                         clear_interval_arr := updI st.sync.clear_interval_arr oid 0 },
               previous_values := st.previous_values }, tr) := by
      intro o ho
      by_cases hid : o.id = oid
      · exact processOutput_prev_match cfg now http device oid _ o hid (hstat o ho hid)
      · exact processOutput_id_mismatch cfg now http device oid _ o hid
    simp only [processDevice, hdev, if_pos hcond]
    split
    · rfl
    · exact foldl_fixed _ _ statusList hfix

/-- C6 witness: output 3 reports status 1, exactly the last pushed value.
On an ordinary tick (no cooldown set) nothing at all happens; on a tick
strictly past a set cooldown window the trace is still empty and only the
two dictionary entries of output 3 are zeroed. -/
theorem C6_witness :
    processDevice ⟨5, 2, 1, [⟨"lamp", "10.0.0.5", "", "", some 3⟩]⟩ 100
        (fun _ _ => ⟨200, some "ON"⟩) [⟨3, 1⟩]
        (⟨⟨fun _ => 0, fun _ => 0⟩, fun _ => some 1⟩, [])
        ⟨"lamp", "10.0.0.5", "", "", some 3⟩
      = (⟨⟨fun _ => 0, fun _ => 0⟩, fun _ => some 1⟩, []) ∧
    processDevice ⟨5, 2, 1, [⟨"lamp", "10.0.0.5", "", "", some 3⟩]⟩ 161
        (fun _ _ => ⟨200, some "ON"⟩) [⟨3, 1⟩]
        (⟨⟨fun _ => 3, fun _ => 100⟩, fun _ => some 1⟩, [])
        ⟨"lamp", "10.0.0.5", "", "", some 3⟩
      = (⟨⟨updI (fun _ => 3) 3 0, updI (fun _ => 100) 3 0⟩, fun _ => some 1⟩, []) :=
  ⟨(C6_amended_unchanged_status _ 100 _ _ _ _ _ 3 rfl
      (by intro o ho hid
          simp only [List.mem_singleton] at ho
          subst ho
          rfl)).1 (by decide),
   (C6_amended_unchanged_status _ 161 _ _ _ _ _ 3 rfl
      (by intro o ho hid
          simp only [List.mem_singleton] at ho
          subst ho
          rfl)).2 (by decide) (by decide)⟩

/-- C7: for an attempted push (matching entry, value differing from the
stored one), the stored last pushed value is updated only on a successful
push, and then to what the device reports (1 exactly when the POWER field of
the response is the string ON), not to the requested status; a non-200
response or an unparseable body leaves previous_values entirely unchanged. -/
theorem C7_last_pushed_reported (cfg : Config) (now : Int)
    (http : Device → Int → HttpResponse) (device : Device) (oid : Int)
    (st : LoopState) (tr : Trace) (output : OutputEntry)
    (hid : output.id = oid)
    (hprev : st.previous_values device.label ≠ some output.status) :
    (∀ p : String, http device output.status = ⟨200, some p⟩ →
      (processOutput cfg now http device oid (st, tr) output).1.previous_values device.label
        = some (if p = "ON" then 1 else 0)) ∧
    ((http device output.status).status_code ≠ 200 →
      (processOutput cfg now http device oid (st, tr) output).1.previous_values
        = st.previous_values) ∧
    ((http device output.status).power = none →
      (processOutput cfg now http device oid (st, tr) output).1.previous_values
        = st.previous_values) := by
  refine ⟨?_, ?_, ?_⟩
  · intro p hp
    simp [processOutput, hid, hprev, update_tasmota, hp]
  · intro h
    simp [processOutput, hid, hprev, update_tasmota, h]
  · intro h
    by_cases h2 : (http device output.status).status_code = 200
    · simp [processOutput, hid, hprev, update_tasmota, h, h2]
    · simp [processOutput, hid, hprev, update_tasmota, h2]

/-- C7 witness: requested action 0 (off), device replies 200 with POWER ON:
the stored value becomes 1, the reported state, not the requested 0. -/
theorem C7_witness :
    (processOutput ⟨5, 2, 1, []⟩ 100 (fun _ _ => ⟨200, some "ON"⟩)
        ⟨"lamp", "10.0.0.5", "", "", some 3⟩ 3
        (⟨⟨fun _ => 0, fun _ => 0⟩, fun _ => some 1⟩, []) ⟨3, 0⟩).1.previous_values "lamp"
      = some (if "ON" = "ON" then 1 else 0) :=
  (C7_last_pushed_reported _ 100 _ ⟨"lamp", "10.0.0.5", "", "", some 3⟩ 3
    ⟨⟨fun _ => 0, fun _ => 0⟩, fun _ => some 1⟩ [] ⟨3, 0⟩ rfl (by decide)).1 "ON" rfl

/-- C10: the inner loop keys retry and cooldown state by output id but the
last-pushed cache by label.  After a successful push for device d1 on its
output id: both dictionaries hold 0 at that id (shared with every mapping
carrying the same output id); previous_values holds the reported value under
the label of d1 (shared with every mapping carrying that label); and the
skip-unchanged check of any mapping with that label reads exactly this
shared value, skipping when the source reports it. -/
theorem C10_state_keying (cfg : Config) (now : Int)
    (http : Device → Int → HttpResponse) (d1 : Device) (oid : Int)
    (st : LoopState) (tr : Trace) (output : OutputEntry) (p : String)
    (hid : output.id = oid)
    (hprev : st.previous_values d1.label ≠ some output.status)
    (hresp : http d1 output.status = ⟨200, some p⟩) :
    ((processOutput cfg now http d1 oid (st, tr) output).1.sync.max_retries_arr oid = 0 ∧
     (processOutput cfg now http d1 oid (st, tr) output).1.sync.clear_interval_arr oid = 0) ∧
    (∀ d2 : Device, d2.label = d1.label →
      (processOutput cfg now http d1 oid (st, tr) output).1.previous_values d2.label
        = some (if p = "ON" then 1 else 0)) ∧
    (∀ (d2 : Device) (oid2 : Int) (tr2 : Trace) (out2 : OutputEntry),
      d2.label = d1.label → out2.id = oid2 →
      out2.status = (if p = "ON" then 1 else 0) →
      processOutput cfg now http d2 oid2
          ((processOutput cfg now http d1 oid (st, tr) output).1, tr2) out2
        = ((processOutput cfg now http d1 oid (st, tr) output).1, tr2)) := by
  have hr : processOutput cfg now http d1 oid (st, tr) output
      = ({ sync := { max_retries_arr := updI st.sync.max_retries_arr oid 0,
                     clear_interval_arr := updI st.sync.clear_interval_arr oid 0 },
           previous_values := updS st.previous_values d1.label
             (some (if p = "ON" then 1 else 0)) },
         tr ++ [(d1.label, output.status)]) := by
    simp [processOutput, hid, hprev, update_tasmota, hresp]
  refine ⟨⟨?_, ?_⟩, ?_, ?_⟩
  · rw [hr]; simp
  · rw [hr]; simp
  · intro d2 hlab
    rw [hr]; simp [hlab]
  · intro d2 oid2 tr2 out2 hlab hid2 hstat
    refine processOutput_prev_match cfg now http d2 oid2 _ out2 hid2 ?_
    rw [hr]; simp [hlab, hstat]

/-- C10 witness: two mappings lampA and lampB share output id 3; two further
mappings share the label lamp.  A successful push on the shared structures
resets the id-keyed dictionaries and updates the label-keyed cache, which the
second mapping then reads and skips on. -/
theorem C10_witness :
    ((processOutput ⟨5, 2, 1, []⟩ 100 (fun _ _ => ⟨200, some "ON"⟩)
        ⟨"lamp", "10.0.0.5", "", "", some 3⟩ 3
        (⟨⟨fun _ => 9, fun _ => 44⟩, fun _ => none⟩, []) ⟨3, 1⟩).1.sync.max_retries_arr 3 = 0 ∧
     (processOutput ⟨5, 2, 1, []⟩ 100 (fun _ _ => ⟨200, some "ON"⟩)
        ⟨"lamp", "10.0.0.5", "", "", some 3⟩ 3
        (⟨⟨fun _ => 9, fun _ => 44⟩, fun _ => none⟩, []) ⟨3, 1⟩).1.sync.clear_interval_arr 3 = 0) ∧
    (processOutput ⟨5, 2, 1, []⟩ 100 (fun _ _ => ⟨200, some "ON"⟩)
        ⟨"lamp", "10.0.0.5", "", "", some 3⟩ 3
        (⟨⟨fun _ => 9, fun _ => 44⟩, fun _ => none⟩, []) ⟨3, 1⟩).1.previous_values "lamp"
      = some (if "ON" = "ON" then 1 else 0) ∧
    processOutput ⟨5, 2, 1, []⟩ 100 (fun _ _ => ⟨200, some "ON"⟩)
        ⟨"lamp", "10.9.9.9", "", "", some 7⟩ 7
        ((processOutput ⟨5, 2, 1, []⟩ 100 (fun _ _ => ⟨200, some "ON"⟩)
            ⟨"lamp", "10.0.0.5", "", "", some 3⟩ 3
            (⟨⟨fun _ => 9, fun _ => 44⟩, fun _ => none⟩, []) ⟨3, 1⟩).1, []) ⟨7, 1⟩
      = ((processOutput ⟨5, 2, 1, []⟩ 100 (fun _ _ => ⟨200, some "ON"⟩)
            ⟨"lamp", "10.0.0.5", "", "", some 3⟩ 3
            (⟨⟨fun _ => 9, fun _ => 44⟩, fun _ => none⟩, []) ⟨3, 1⟩).1, []) := by
  have h := C10_state_keying ⟨5, 2, 1, []⟩ 100 (fun _ _ => ⟨200, some "ON"⟩)
    ⟨"lamp", "10.0.0.5", "", "", some 3⟩ 3
    ⟨⟨fun _ => 9, fun _ => 44⟩, fun _ => none⟩ [] ⟨3, 1⟩ "ON" rfl (by decide) rfl
  exact ⟨h.1, h.2.1 ⟨"lamp", "10.9.9.9", "", "", some 7⟩ rfl,
    h.2.2 ⟨"lamp", "10.9.9.9", "", "", some 7⟩ 7 [] ⟨7, 1⟩ rfl rfl (by decide)⟩

/-- Explicit form of the inner loop body for a failed push attempt: matching
entry, differing value, non-200 response.  The failure count is incremented
by exactly one; when the new count exceeds max_retries the current time is
stored, otherwise the stored time is untouched; previous_values is untouched;
the invocation is recorded. -/
theorem processOutput_fail (cfg : Config) (now : Int)
    (http : Device → Int → HttpResponse) (device : Device) (oid : Int)
    (st : LoopState) (tr : Trace) (output : OutputEntry)
    (hid : output.id = oid)
    (hprev : st.previous_values device.label ≠ some output.status)
    (hfail : (http device output.status).status_code ≠ 200) :
    processOutput cfg now http device oid (st, tr) output
      = ({ sync := { max_retries_arr :=
                       updI st.sync.max_retries_arr oid (st.sync.max_retries_arr oid + 1),
                     clear_interval_arr :=
                       if st.sync.max_retries_arr oid + 1 > cfg.max_retries
                       then updI st.sync.clear_interval_arr oid now
                       else st.sync.clear_interval_arr },
           previous_values := st.previous_values },
         tr ++ [(device.label, output.status)]) := by
  simp [processOutput, hid, hprev, update_tasmota, hfail]

/-- Explicit form of the inner loop body for a successful push attempt:
matching entry, differing value, 200 response with a parsed POWER field. -/
theorem processOutput_success (cfg : Config) (now : Int)
    (http : Device → Int → HttpResponse) (device : Device) (oid : Int)
    (st : LoopState) (tr : Trace) (output : OutputEntry) (p : String)
    (hid : output.id = oid)
    (hprev : st.previous_values device.label ≠ some output.status)
    (hresp : http device output.status = ⟨200, some p⟩) :
    processOutput cfg now http device oid (st, tr) output
      = ({ sync := { max_retries_arr := updI st.sync.max_retries_arr oid 0,
                     clear_interval_arr := updI st.sync.clear_interval_arr oid 0 },
           previous_values := updS st.previous_values device.label
             (some (if p = "ON" then 1 else 0)) },
         tr ++ [(device.label, output.status)]) := by
  simp [processOutput, hid, hprev, update_tasmota, hresp]

/-- The outer loop body reaches the inner loop unchanged when the stored
clear time is 0 and the failure count does not exceed max_retries. -/
theorem processDevice_active (cfg : Config) (now : Int)
    (http : Device → Int → HttpResponse) (statusList : List OutputEntry)
    (st : LoopState) (tr : Trace) (device : Device) (oid : Int)
    (hdev : device.output_id = some oid)
    (hcl : st.sync.clear_interval_arr oid = 0)
    (hfc : ¬ st.sync.max_retries_arr oid > cfg.max_retries) :
    processDevice cfg now http statusList (st, tr) device
      = statusList.foldl (processOutput cfg now http device oid) (st, tr) := by
  have hnot : ¬(st.sync.clear_interval_arr oid ≠ 0 ∧
      st.sync.clear_interval_arr oid + cfg.clear_interval * 60 < now) := by
    simp [hcl]
  simp [processDevice, hdev, hnot, hfc]

/-- C8: with mappings A then B configured, both active, a push failure on A
within a tick does not abort the tick: B is still evaluated in the same tick
and, its reported status differing from its stored value, is pushed; the
trace shows both invocations and the stored value for B is updated. -/
theorem C8_failure_isolation (cfg : Config) (now : Int)
    (http : Device → Int → HttpResponse) (A B : Device)
    (oidA oidB sA sB : Int) (p : String) (st : LoopState)
    (hmap : cfg.tasmota_mapping = [A, B])
    (hA : A.output_id = some oidA) (hB : B.output_id = some oidB)
    (hoid : oidA ≠ oidB)
    (hfcA : ¬ st.sync.max_retries_arr oidA > cfg.max_retries)
    (hclA : st.sync.clear_interval_arr oidA = 0)
    (hfcB : ¬ st.sync.max_retries_arr oidB > cfg.max_retries)
    (hclB : st.sync.clear_interval_arr oidB = 0)
    (hpA : st.previous_values A.label ≠ some sA)
    (hpB : st.previous_values B.label ≠ some sB)
    (hfailA : (http A sA).status_code ≠ 200)
    (hokB : http B sB = ⟨200, some p⟩) :
    ∃ st' : LoopState,
      tick cfg now http (.payload (some [⟨oidA, sA⟩, ⟨oidB, sB⟩])) st
        = .ok (st', [(A.label, sA), (B.label, sB)]) ∧
      st'.previous_values B.label = some (if p = "ON" then 1 else 0) := by
  have hstepA : processDevice cfg now http [⟨oidA, sA⟩, ⟨oidB, sB⟩] (st, []) A
      = ({ sync := { max_retries_arr :=
                       updI st.sync.max_retries_arr oidA (st.sync.max_retries_arr oidA + 1),
                     clear_interval_arr :=
                       if st.sync.max_retries_arr oidA + 1 > cfg.max_retries
                       then updI st.sync.clear_interval_arr oidA now
                       else st.sync.clear_interval_arr },
           previous_values := st.previous_values },
         [(A.label, sA)]) := by
    rw [processDevice_active cfg now http _ st [] A oidA hA hclA hfcA]
    simp only [List.foldl_cons, List.foldl_nil]
    rw [processOutput_fail cfg now http A oidA st [] ⟨oidA, sA⟩ rfl hpA hfailA]
    exact processOutput_id_mismatch cfg now http A oidA _ ⟨oidB, sB⟩ (Ne.symm hoid)
  have hclB1 : (if st.sync.max_retries_arr oidA + 1 > cfg.max_retries
      then updI st.sync.clear_interval_arr oidA now
      else st.sync.clear_interval_arr) oidB = 0 := by
    by_cases hc : st.sync.max_retries_arr oidA + 1 > cfg.max_retries
    · simp [hc, updI_other _ _ _ _ (Ne.symm hoid), hclB]
    · simp [hc, hclB]
  have hfcB1 : updI st.sync.max_retries_arr oidA
      (st.sync.max_retries_arr oidA + 1) oidB = st.sync.max_retries_arr oidB :=
    updI_other _ _ _ _ (Ne.symm hoid)
  refine ⟨{ sync := { max_retries_arr :=
                        updI (updI st.sync.max_retries_arr oidA
                          (st.sync.max_retries_arr oidA + 1)) oidB 0,
                      clear_interval_arr :=
                        updI (if st.sync.max_retries_arr oidA + 1 > cfg.max_retries
                              then updI st.sync.clear_interval_arr oidA now
                              else st.sync.clear_interval_arr) oidB 0 },
            previous_values := updS st.previous_values B.label
              (some (if p = "ON" then 1 else 0)) }, ?_, ?_⟩
  · simp only [tick, hmap, List.foldl_cons, List.foldl_nil]
    rw [hstepA]
    rw [processDevice_active cfg now http [⟨oidA, sA⟩, ⟨oidB, sB⟩]
        { sync := { max_retries_arr := updI st.sync.max_retries_arr oidA
                      (st.sync.max_retries_arr oidA + 1),
                    clear_interval_arr :=
                      if st.sync.max_retries_arr oidA + 1 > cfg.max_retries
                      then updI st.sync.clear_interval_arr oidA now
                      else st.sync.clear_interval_arr },
          previous_values := st.previous_values } [(A.label, sA)] B oidB hB hclB1
        (by show ¬ updI st.sync.max_retries_arr oidA
              (st.sync.max_retries_arr oidA + 1) oidB > cfg.max_retries
            rw [hfcB1]
            exact hfcB)]
    simp only [List.foldl_cons, List.foldl_nil]
    rw [processOutput_id_mismatch cfg now http B oidB _ ⟨oidA, sA⟩ hoid]
    rw [processOutput_success cfg now http B oidB
        { sync := { max_retries_arr := updI st.sync.max_retries_arr oidA
                      (st.sync.max_retries_arr oidA + 1),
                    clear_interval_arr :=
                      if st.sync.max_retries_arr oidA + 1 > cfg.max_retries
                      then updI st.sync.clear_interval_arr oidA now
                      else st.sync.clear_interval_arr },
          previous_values := st.previous_values } [(A.label, sA)] ⟨oidB, sB⟩ p rfl hpB hokB]
    exact rfl
  · exact updS_same _ _ _

/-- C8 witness: device A (output 5) unreachable, device B (output 6) healthy
and out of sync; in one tick A fails and B is still pushed. -/
theorem C8_witness :
    ∃ st' : LoopState,
      tick ⟨5, 2, 1, [⟨"a", "10.0.0.5", "", "", some 5⟩, ⟨"b", "10.0.0.6", "", "", some 6⟩]⟩
          77
          (fun d _ => if d.ip_address = "10.0.0.5" then ⟨500, none⟩ else ⟨200, some "ON"⟩)
          (.payload (some [⟨5, 1⟩, ⟨6, 1⟩]))
          ⟨⟨fun _ => 0, fun _ => 0⟩, fun _ => none⟩
        = .ok (st', [("a", 1), ("b", 1)]) ∧
      st'.previous_values "b" = some (if "ON" = "ON" then 1 else 0) :=
  C8_failure_isolation _ 77 _ ⟨"a", "10.0.0.5", "", "", some 5⟩
    ⟨"b", "10.0.0.6", "", "", some 6⟩ 5 6 1 1 "ON"
    ⟨⟨fun _ => 0, fun _ => 0⟩, fun _ => none⟩
    rfl rfl rfl (by decide) (by decide) (by decide) (by decide) (by decide)
    (by decide) (by decide) (by decide) rfl

/-- C5: a failed attempt increments the failure count of the output by
exactly one, and the clear time is written exactly when the new count
strictly exceeds max_retries (otherwise it is untouched); iterating ticks
with a single always-failing matching entry from a fresh state, the count
is k and no clear time is set after k <= max_retries consecutive failures,
and the clear time is set to the current time precisely at failure number
max_retries + 1. -/
theorem C5_failure_counting (cfg : Config) (now : Int)
    (http : Device → Int → HttpResponse) (device : Device) (oid : Int)
    (output : OutputEntry) (m : Nat)
    (hdev : device.output_id = some oid)
    (hmax : cfg.max_retries = (m : Int))
    (hid : output.id = oid)
    (hfail : (http device output.status).status_code ≠ 200) :
    (∀ (st : LoopState) (tr : Trace),
      st.previous_values device.label ≠ some output.status →
      st.sync.max_retries_arr oid ≤ cfg.max_retries →
      (processOutput cfg now http device oid (st, tr) output).1.sync.max_retries_arr oid
        = st.sync.max_retries_arr oid + 1 ∧
      (processOutput cfg now http device oid (st, tr) output).1.sync.clear_interval_arr oid
        = (if st.sync.max_retries_arr oid + 1 > cfg.max_retries then now
           else st.sync.clear_interval_arr oid)) ∧
    (∀ st0 : LoopState,
      st0.sync.max_retries_arr oid = 0 →
      st0.sync.clear_interval_arr oid = 0 →
      st0.previous_values device.label ≠ some output.status →
      (∀ k : Nat, k ≤ m →
        ((fun s => processDevice cfg now http [output] s device)^[k]
            (st0, [])).1.sync.max_retries_arr oid = (k : Int) ∧
        ((fun s => processDevice cfg now http [output] s device)^[k]
            (st0, [])).1.sync.clear_interval_arr oid = 0) ∧
      ((fun s => processDevice cfg now http [output] s device)^[m + 1]
          (st0, [])).1.sync.max_retries_arr oid = (m : Int) + 1 ∧
      ((fun s => processDevice cfg now http [output] s device)^[m + 1]
          (st0, [])).1.sync.clear_interval_arr oid = now) := by
  have hsingle : ∀ (st : LoopState) (tr : Trace),
      st.previous_values device.label ≠ some output.status →
      (processOutput cfg now http device oid (st, tr) output).1.sync.max_retries_arr oid
        = st.sync.max_retries_arr oid + 1 ∧
      (processOutput cfg now http device oid (st, tr) output).1.sync.clear_interval_arr oid
        = (if st.sync.max_retries_arr oid + 1 > cfg.max_retries then now
           else st.sync.clear_interval_arr oid) := by
    intro st tr hprev
    rw [processOutput_fail cfg now http device oid st tr output hid hprev hfail]
    constructor
    · exact updI_same _ _ _
    · by_cases hc : st.sync.max_retries_arr oid + 1 > cfg.max_retries
      · simp [hc]
      · simp [hc]
  refine ⟨fun st tr hprev _ => hsingle st tr hprev, ?_⟩
  intro st0 hfc0 hcl0 hprev0
  have hstep : ∀ (s : LoopState) (tr : Trace),
      s.sync.clear_interval_arr oid = 0 →
      ¬ s.sync.max_retries_arr oid > cfg.max_retries →
      s.previous_values device.label ≠ some output.status →
      processDevice cfg now http [output] (s, tr) device
        = ({ sync := { max_retries_arr :=
                         updI s.sync.max_retries_arr oid (s.sync.max_retries_arr oid + 1),
                       clear_interval_arr :=
                         if s.sync.max_retries_arr oid + 1 > cfg.max_retries
                         then updI s.sync.clear_interval_arr oid now
                         else s.sync.clear_interval_arr },
             previous_values := s.previous_values },
           tr ++ [(device.label, output.status)]) := by
    intro s tr hcl hfc hprev
    rw [processDevice_active cfg now http [output] s tr device oid hdev hcl hfc]
    simp only [List.foldl_cons, List.foldl_nil]
    exact processOutput_fail cfg now http device oid s tr output hid hprev hfail
  have hiter : ∀ k : Nat, k ≤ m →
      ((fun s => processDevice cfg now http [output] s device)^[k]
          (st0, [])).1.sync.max_retries_arr oid = (k : Int) ∧
      ((fun s => processDevice cfg now http [output] s device)^[k]
          (st0, [])).1.sync.clear_interval_arr oid = 0 ∧
      ((fun s => processDevice cfg now http [output] s device)^[k]
          (st0, [])).1.previous_values = st0.previous_values := by
    intro k
    induction k with
    | zero => intro _; exact ⟨by simpa using hfc0, by simpa using hcl0, rfl⟩
    | succ k ih =>
        intro hk
        have hk' : k ≤ m := Nat.le_of_succ_le hk
        obtain ⟨ihfc, ihcl, ihpv⟩ := ih hk'
        rw [Function.iterate_succ_apply']
        set s := (fun s => processDevice cfg now http [output] s device)^[k] (st0, []) with hs
        have hskip : ¬ s.1.sync.max_retries_arr oid > cfg.max_retries := by
          rw [ihfc, hmax]
          omega
        have hpv : s.1.previous_values device.label ≠ some output.status := by
          rw [ihpv]; exact hprev0
        have := hstep s.1 s.2 ihcl hskip hpv
        rw [this]
        refine ⟨by push_cast; simp [ihfc], ?_, by simpa using ihpv⟩
        have hlt : ¬ s.1.sync.max_retries_arr oid + 1 > cfg.max_retries := by
          rw [ihfc, hmax]
          omega
        simp [hlt, ihcl]
  refine ⟨fun k hk => ⟨(hiter k hk).1, (hiter k hk).2.1⟩, ?_, ?_⟩
  all_goals
    obtain ⟨ihfc, ihcl, ihpv⟩ := hiter m (le_refl m)
    rw [Function.iterate_succ_apply']
    set s := (fun s => processDevice cfg now http [output] s device)^[m] (st0, []) with hs
    have hskip : ¬ s.1.sync.max_retries_arr oid > cfg.max_retries := by
      rw [ihfc, hmax]
      omega
    have hpv : s.1.previous_values device.label ≠ some output.status := by
      rw [ihpv]; exact hprev0
    rw [hstep s.1 s.2 ihcl hskip hpv]
  · simp [ihfc]
  · have hgt : s.1.sync.max_retries_arr oid + 1 > cfg.max_retries := by
      rw [ihfc, hmax]
      omega
    simp [hgt]

/-- C5 witness: max_retries 1, device always unreachable: after 1 failure the
count is 1 with no clear time; failure number 2 sets the clear time to the
tick time 9. -/
theorem C5_witness :
    ((fun s => processDevice ⟨5, 1, 1, [⟨"lamp", "10.0.0.5", "", "", some 3⟩]⟩ 9
        (fun _ _ => ⟨500, none⟩) [⟨3, 1⟩] s ⟨"lamp", "10.0.0.5", "", "", some 3⟩)^[1]
        (⟨⟨fun _ => 0, fun _ => 0⟩, fun _ => none⟩, [])).1.sync.max_retries_arr 3 = 1 ∧
    ((fun s => processDevice ⟨5, 1, 1, [⟨"lamp", "10.0.0.5", "", "", some 3⟩]⟩ 9
        (fun _ _ => ⟨500, none⟩) [⟨3, 1⟩] s ⟨"lamp", "10.0.0.5", "", "", some 3⟩)^[1]
        (⟨⟨fun _ => 0, fun _ => 0⟩, fun _ => none⟩, [])).1.sync.clear_interval_arr 3 = 0 ∧
    ((fun s => processDevice ⟨5, 1, 1, [⟨"lamp", "10.0.0.5", "", "", some 3⟩]⟩ 9
        (fun _ _ => ⟨500, none⟩) [⟨3, 1⟩] s ⟨"lamp", "10.0.0.5", "", "", some 3⟩)^[2]
        (⟨⟨fun _ => 0, fun _ => 0⟩, fun _ => none⟩, [])).1.sync.max_retries_arr 3 = 2 ∧
    ((fun s => processDevice ⟨5, 1, 1, [⟨"lamp", "10.0.0.5", "", "", some 3⟩]⟩ 9
        (fun _ _ => ⟨500, none⟩) [⟨3, 1⟩] s ⟨"lamp", "10.0.0.5", "", "", some 3⟩)^[2]
        (⟨⟨fun _ => 0, fun _ => 0⟩, fun _ => none⟩, [])).1.sync.clear_interval_arr 3 = 9 := by
  have h := (C5_failure_counting ⟨5, 1, 1, [⟨"lamp", "10.0.0.5", "", "", some 3⟩]⟩ 9
      (fun _ _ => ⟨500, none⟩) ⟨"lamp", "10.0.0.5", "", "", some 3⟩ 3 ⟨3, 1⟩ 1
      rfl rfl rfl (by decide)).2
    ⟨⟨fun _ => 0, fun _ => 0⟩, fun _ => none⟩ rfl rfl (by decide)
  exact ⟨by exact_mod_cast (h.1 1 (le_refl 1)).1, (h.1 1 (le_refl 1)).2,
    by exact_mod_cast h.2.1, h.2.2⟩

/-- C2 counterexample: the run-loop dictionary previous_values is NOT
discarded by set_config: it is a local variable of run.  Concretely: the
last pushed value for the label lamp is 1; set_config installs a valid new
configuration still mapping lamp to output 3 (rebuilding the retry and clear
dictionaries); on the next tick the source reports status 1 for output 3 and
the loop does not invoke the updater (empty trace), because previous_values
still holds 1 rather than being unknown, contradicting the claim that every
output is then eligible with an unknown last-pushed value (an unknown value
would have forced a push here). -/
theorem C2_counterexample :
    (tick ⟨5, 2, 1, [⟨"lamp", "10.0.0.5", "", "", some 3⟩]⟩ 200
        (fun _ _ => ⟨200, some "ON"⟩) (.payload (some [⟨3, 1⟩]))
        ⟨(set_config (fun _ => true)
            (.parsed ⟨5, 2, 1, [⟨"lamp", "10.0.0.5", "", "", some 3⟩]⟩)
            (⟨5, 2, 1, []⟩, ⟨fun _ => 21, fun _ => 100⟩)).1.2,
          fun l => if l = "lamp" then some 1 else none⟩).map Prod.snd
      = .ok ([] : Trace) := by
  rfl

/-- C2 (amended): a valid set_config replaces the configuration, rebuilds
the retry and clear-time dictionaries so that both hold 0 at every output id
(discarding all failure counts and cooldown times: a previously cooling-down
output is immediately eligible, reaching the inner loop on the next tick
whatever prior state it had, as long as max_retries is not negative) — but
the last-pushed values of the run loop are NOT discarded: previous_values is
outside the state set_config rebuilds, so the loop resumes with whatever
last-pushed values it had. -/
theorem C2_amended_reconfig_resets (check : Config → Bool) (cfg1 : Config)
    (p : Config × SyncState)
    (hcheck : check cfg1 = true) :
    set_config check (.parsed cfg1) p
      = ((cfg1, read_config_rebuild cfg1), .ok "\x7b\"success\": true\x7d") ∧
    (∀ oid : Int, (read_config_rebuild cfg1).max_retries_arr oid = 0 ∧
      (read_config_rebuild cfg1).clear_interval_arr oid = 0) ∧
    (∀ (now : Int) (http : Device → Int → HttpResponse)
        (statusList : List OutputEntry) (prev : String → Option Int) (tr : Trace)
        (device : Device) (oid : Int),
      0 ≤ cfg1.max_retries → device.output_id = some oid →
      processDevice cfg1 now http statusList (⟨read_config_rebuild cfg1, prev⟩, tr) device
        = statusList.foldl (processOutput cfg1 now http device oid)
            (⟨read_config_rebuild cfg1, prev⟩, tr)) := by
  refine ⟨by simp [set_config, hcheck], read_config_rebuild_zero cfg1, ?_⟩
  intro now http statusList prev tr device oid hm hdev
  refine processDevice_active cfg1 now http statusList ⟨read_config_rebuild cfg1, prev⟩
    tr device oid hdev (read_config_rebuild_zero cfg1 oid).2 ?_
  have h0 := (read_config_rebuild_zero cfg1 oid).1
  show ¬ (read_config_rebuild cfg1).max_retries_arr oid > cfg1.max_retries
  omega

/-- C2 witness: a valid reconfiguration from a state where output 3 held
failure count 21 and clear time 100: the rebuilt dictionaries hold 0 at
output 3 and the mapped device reaches the inner loop on the next tick. -/
theorem C2_witness :
    set_config (fun _ => true)
        (.parsed ⟨5, 2, 1, [⟨"lamp", "10.0.0.5", "", "", some 3⟩]⟩)
        (⟨5, 2, 1, []⟩, ⟨fun _ => 21, fun _ => 100⟩)
      = ((⟨5, 2, 1, [⟨"lamp", "10.0.0.5", "", "", some 3⟩]⟩,
          read_config_rebuild ⟨5, 2, 1, [⟨"lamp", "10.0.0.5", "", "", some 3⟩]⟩),
         .ok "\x7b\"success\": true\x7d") ∧
    (read_config_rebuild ⟨5, 2, 1, [⟨"lamp", "10.0.0.5", "", "", some 3⟩]⟩).max_retries_arr 3 = 0 ∧
    (read_config_rebuild ⟨5, 2, 1, [⟨"lamp", "10.0.0.5", "", "", some 3⟩]⟩).clear_interval_arr 3 = 0 ∧
    processDevice ⟨5, 2, 1, [⟨"lamp", "10.0.0.5", "", "", some 3⟩]⟩ 200
        (fun _ _ => ⟨200, some "ON"⟩) [⟨3, 0⟩]
        (⟨read_config_rebuild ⟨5, 2, 1, [⟨"lamp", "10.0.0.5", "", "", some 3⟩]⟩,
          fun _ => none⟩, [])
        ⟨"lamp", "10.0.0.5", "", "", some 3⟩
      = [OutputEntry.mk 3 0].foldl
          (processOutput ⟨5, 2, 1, [⟨"lamp", "10.0.0.5", "", "", some 3⟩]⟩ 200
            (fun _ _ => ⟨200, some "ON"⟩) ⟨"lamp", "10.0.0.5", "", "", some 3⟩ 3)
          (⟨read_config_rebuild ⟨5, 2, 1, [⟨"lamp", "10.0.0.5", "", "", some 3⟩]⟩,
            fun _ => none⟩, []) := by
  have h := C2_amended_reconfig_resets (fun _ => true)
    ⟨5, 2, 1, [⟨"lamp", "10.0.0.5", "", "", some 3⟩]⟩
    (⟨5, 2, 1, []⟩, ⟨fun _ => 21, fun _ => 100⟩) rfl
  exact ⟨h.1, (h.2.1 3).1, (h.2.1 3).2,
    h.2.2 200 (fun _ _ => ⟨200, some "ON"⟩) [⟨3, 0⟩] (fun _ => none) []
      ⟨"lamp", "10.0.0.5", "", "", some 3⟩ 3 (by decide) rfl⟩
